import Mathlib

/-!
Shallow embedding of `pygame_menu/sound.py` (class `Sound`) and
`pygame_menu/utils.py` (`assert_color`) from the pygame-menu repository.

The dynamically typed Python numeric arguments are modelled by `PyNum`
(an `int` or a `float` value); `float` values carry rationals.  Where
IEEE binary64 rounding can change a comparison — the overlap gate of
`_play_sound` computes `soundtime - self._last_time >= 0.2 * length`
on doubles — the rounding to binary64 is modelled explicitly by `fl`
(round to nearest, ties to even), and the gate uses the rounded
subtraction `fsub` and multiplication `fmul` on it.
Backend effects (pygame mixer) are modelled explicitly: the result of
`mixer.find_channel()` is an input to each operation, and the channel
`stop`/`play` invocations issued by `_play_sound` are returned as a
list of `BackendCall`s.  Opaque backend handles (channels, decoded
sounds) are `Nat`.
-/

namespace PygameMenu

/-- A Python numeric value with its runtime type tag: `isinstance(x, int)`
holds exactly for `.intv`, `isinstance(x, float)` exactly for `.floatv`. -/
inductive PyNum where
  | intv (n : Int)
  | floatv (q : ℚ)
deriving DecidableEq, Repr

def PyNum.isFloat : PyNum → Bool
  | .floatv _ => true
  | .intv _ => false

def PyNum.isInt : PyNum → Bool
  | .intv _ => true
  | .floatv _ => false

/-- The numeric value of a `PyNum` (used in comparisons such as `loops >= 0`). -/
def PyNum.toRat : PyNum → ℚ
  | .intv n => (n : ℚ)
  | .floatv q => q

/-! Sound type constants, from the top of `sound.py`. -/

def SOUND_TYPE_CLICK_MOUSE : String := "__pygame_menu_sound_click_mouse__"
def SOUND_TYPE_CLOSE_MENU : String := "__pygame_menu_sound_close_menu__"
def SOUND_TYPE_ERROR : String := "__pygame_menu_sound_error__"
def SOUND_TYPE_EVENT : String := "__pygame_menu_sound_event__"
def SOUND_TYPE_EVENT_ERROR : String := "__pygame_menu_sound_event_error__"
def SOUND_TYPE_KEY_ADDITION : String := "__pygame_menu_sound_key_addition__"
def SOUND_TYPE_KEY_DELETION : String := "__pygame_menu_sound_key_deletion__"
def SOUND_TYPE_OPEN_MENU : String := "__pygame_menu_sound_open_menu__"
def SOUND_TYPE_WIDGET_SELECTION : String := "__pygame_menu_sound_widget_selection__"

/-- The list `self._type_sounds`, in source order. -/
def type_sounds : List String :=
  [SOUND_TYPE_CLICK_MOUSE,
   SOUND_TYPE_CLOSE_MENU,
   SOUND_TYPE_ERROR,
   SOUND_TYPE_EVENT,
   SOUND_TYPE_EVENT_ERROR,
   SOUND_TYPE_KEY_ADDITION,
   SOUND_TYPE_KEY_DELETION,
   SOUND_TYPE_OPEN_MENU,
   SOUND_TYPE_WIDGET_SELECTION]

/-- The bundled example sound paths (`SOUND_EXAMPLES`), in source order;
the directory prefix computed from `__file__` is abstracted away. -/
def SOUND_EXAMPLES : List String :=
  ["click_mouse.ogg", "close_menu.ogg", "error.ogg", "event.ogg",
   "event_error.ogg", "key_add.ogg", "key_delete.ogg", "open_menu.ogg",
   "widget_selection.ogg"]

/-- The non-empty dict stored in `self._sound[sound_type]` by `set_sound`:
a dict with keys file, path, type, length, volume, loops, maxtime and
fade_ms.
`file` is the opaque decoded-audio handle, `length` the backend-reported
duration in seconds. -/
structure Clip where
  file : Nat
  path : String
  type : String
  length : ℚ
  volume : PyNum
  loops : PyNum
  maxtime : PyNum
  fade_ms : PyNum
deriving DecidableEq, Repr

/-- The slice of the pygame mixer backend that `set_sound` interacts with:
`os.path.isfile` and `mixer.Sound(file=...)`.  `decode p = none` models a
`pygame.error` raised while loading (undecodable data); `decode p =
some (handle, length)` models a successful load. -/
structure Backend where
  fileExists : String → Bool
  decode : String → Option (Nat × ℚ)

/-- The mutable state of a `Sound` instance: `_channel`, `_uniquechannel`,
`_sound` (empty dict per kind modelled as `none`), `_last_play`, `_last_time`. -/
structure SoundState where
  channel : Option Nat
  uniquechannel : Bool
  sound : String → Option Clip
  last_play : String
  last_time : ℚ

/-- Model of `Sound.get_channel`, with the result of `mixer.find_channel()` passed
in as `found`.  Returns the channel handed to the caller and the updated
state. -/
def get_channel (found : Option Nat) (s : SoundState) : Option Nat × SoundState :=
  if s.uniquechannel then
    match s.channel with
    | none => (found, { s with channel := found })
    | some c => (some c, s)
  else
    (found, { s with channel := found })

/-- The Python exceptions `set_sound` can raise: a failed `assert`
(`AssertionError`), the unknown-sound-type `ValueError`, the
missing-file `IOError`. -/
inductive PyError where
  | assertionError
  | valueError
  | ioError
deriving DecidableEq, Repr

/-- Whether a call returned normally (with a value) or raised. -/
inductive SetOut where
  | raised (e : PyError)
  | returned (b : Bool)
deriving DecidableEq, Repr

/-- Result of `set_sound`: outcome, post state, and whether
`warnings.warn` was invoked. -/
structure SetSoundResult where
  out : SetOut
  state : SoundState
  warned : Bool

/-- The assignment `self._sound[sound_type] = dict()` (disable the binding for one kind). -/
def clearBinding (s : SoundState) (sound_type : String) : SoundState :=
  { s with sound := fun t => if t = sound_type then none else s.sound t }

/-- The conjunction of the argument `assert`s of `set_sound`, listed in
source order: `isinstance(volume, float)`, `isinstance(loops, int)`,
`isinstance(maxtime, (int, float))`, `isinstance(fade_ms, (int, float))`,
`loops >= 0`, `maxtime >= 0`, `fade_ms >= 0`, `1 >= volume >= 0`.
Each failing assert raises `AssertionError` with no state change, so the
observable outcome does not depend on which one fails and the chain can
be folded into one conjunction.  The `isinstance(sound_type, str)` and
`isinstance(sound_file, (str, NoneType))` asserts are discharged by the
types of the model. -/
def args_ok (volume loops maxtime fade_ms : PyNum) : Bool :=
  volume.isFloat && loops.isInt && (maxtime.isInt || maxtime.isFloat)
    && (fade_ms.isInt || fade_ms.isFloat)
    && decide (loops.toRat ≥ 0) && decide (maxtime.toRat ≥ 0)
    && decide (fade_ms.toRat ≥ 0)
    && decide (1 ≥ volume.toRat ∧ volume.toRat ≥ 0)

/-- Model of `Sound.set_sound(sound_type, sound_file, volume, loops, maxtime, fade_ms)`. -/
def set_sound (be : Backend) (s : SoundState) (sound_type : String)
    (sound_file : Option String) (volume : PyNum) (loops : PyNum)
    (maxtime : PyNum) (fade_ms : PyNum) : SetSoundResult :=
  if !(args_ok volume loops maxtime fade_ms) then ⟨.raised .assertionError, s, false⟩
  else if sound_type ∉ type_sounds then ⟨.raised .valueError, s, false⟩
  else
    match sound_file with
    | none => ⟨.returned false, clearBinding s sound_type, false⟩
    | some f =>
      if !(be.fileExists f) then ⟨.raised .ioError, s, false⟩
      else
        match be.decode f with
        | none => ⟨.returned false, clearBinding s sound_type, true⟩
        | some (hnd, len) =>
          ⟨.returned true,
           { s with sound := fun t =>
               if t = sound_type then
                 some ⟨hnd, f, sound_type, len, volume, loops, maxtime, fade_ms⟩
               else s.sound t },
           false⟩

/-- Rounding of a rational to the nearest IEEE binary64 value (round to
nearest, ties to even), for finite values in the normal range; overflow
and subnormal magnitudes do not occur in this development.  The
significand has 53 bits: a positive value in the binade
[2^e, 2^(e+1)) is rounded to an integer multiple of 2^(e-52). -/
def fl (q : ℚ) : ℚ :=
  if q = 0 then 0
  else
    let a := |q|
    let e : ℤ := Int.log 2 a
    let u : ℚ := (2 : ℚ) ^ (e - 52)
    let m : ℤ := ⌊a / u⌋
    let r : ℚ := a - m * u
    let m2 : ℤ :=
      if 2 * r < u then m
      else if u < 2 * r then m + 1
      else if m % 2 = 0 then m else m + 1
    (if q < 0 then -1 else 1) * ((m2 : ℚ) * u)

/-- IEEE binary64 subtraction: the exact difference, rounded back to a
double. -/
def fsub (x y : ℚ) : ℚ := fl (x - y)

/-- IEEE binary64 multiplication: the exact product, rounded back to a
double. -/
def fmul (x y : ℚ) : ℚ := fl (x * y)

/-- A call issued to the backend channel by `_play_sound`:
`channel.stop()` or `channel.play(file, loops, maxtime, fade_ms)`. -/
inductive BackendCall where
  | stop (ch : Nat)
  | play (ch : Nat) (file : Nat) (loops : PyNum) (maxtime : PyNum) (fade_ms : PyNum)
deriving DecidableEq, Repr

/-- Model of `Sound._play_sound(sound)`, with the `mixer.find_channel()` result
`found` and the `time.time()` reading `now` (an IEEE double, hence a
rational) passed in.  Returns the bool result, the post state, and the
backend channel calls issued (in order).  The overlap gate computes
`soundtime - self._last_time >= 0.2 * sound[length]` in binary64: the
float literal `0.2` denotes the double `fl 0.2`, and the subtraction and
multiplication round their results (`fsub`, `fmul`). -/
def play_sound (found : Option Nat) (now : ℚ) (sound : Option Clip)
    (s : SoundState) : Bool × SoundState × List BackendCall :=
  match sound with
  | none => (false, s, [])
  | some snd =>
    match get_channel found s with
    | (none, s1) => (false, s1, [])
    | (some channel, s1) =>
      let soundtime := now
      let calls : List BackendCall :=
        if snd.type != s1.last_play
            || decide (fsub soundtime s1.last_time ≥ fmul (fl (0.2 : ℚ)) snd.length)
            || s1.uniquechannel then
          (if s1.uniquechannel then [.stop channel] else []) ++
            [.play channel snd.file snd.loops snd.maxtime snd.fade_ms]
        else []
      (true, { s1 with last_play := snd.type, last_time := soundtime }, calls)

/-- Iterate `play_sound` for one clip over a list of successive
`time.time()` readings, with the same `find_channel` result at each call;
collects all backend calls in order. -/
def play_seq (found : Option Nat) (sound : Option Clip) :
    SoundState → List ℚ → SoundState × List BackendCall
  | s, [] => (s, [])
  | s, t :: ts =>
    let r := play_sound found t sound s
    let rest := play_seq found sound r.2.1 ts
    (rest.1, r.2.2 ++ rest.2)

/-- Number of `channel.play` invocations in a list of backend calls. -/
def playCount (calls : List BackendCall) : Nat :=
  calls.countP fun c => match c with
    | .play _ _ _ _ _ => true
    | .stop _ => false

/-- Iterate `get_channel` over a list of successive `mixer.find_channel()`
results, collecting the channel returned by each call. -/
def get_channel_run : SoundState → List (Option Nat) → List (Option Nat) × SoundState
  | s, [] => ([], s)
  | s, r :: rs =>
    let p := get_channel r s
    let q := get_channel_run p.2 rs
    (p.1 :: q.1, q.2)

/-- Outcome of `Sound.load_example_sounds`: `none` = returned normally,
`some e` = raised `e`; plus the post state. -/
structure LoadResult where
  out : Option PyError
  state : SoundState

/-- The loop body of `load_example_sounds`: bind each kind to its example
file with the given volume and the `set_sound` defaults
`loops=0, maxtime=0, fade_ms=0`; an exception raised by `set_sound`
propagates. -/
def load_example_loop (be : Backend) (volume : PyNum) :
    SoundState → List (String × String) → LoadResult
  | s, [] => ⟨none, s⟩
  | s, (k, f) :: rest =>
    let r := set_sound be s k (some f) volume (.intv 0) (.intv 0) (.intv 0)
    match r.out with
    | .raised e => ⟨some e, r.state⟩
    | .returned _ => load_example_loop be volume r.state rest

/-- Model of `Sound.load_example_sounds(volume)`: asserts `isinstance(volume, float)`,
then binds the nine kinds to the nine example files in order. -/
def load_example_sounds (be : Backend) (s : SoundState) (volume : PyNum) : LoadResult :=
  if !volume.isFloat then ⟨some .assertionError, s⟩
  else load_example_loop be volume s (type_sounds.zip SOUND_EXAMPLES)

/-- The per-channel readable state of the mixer backend used by
`get_channel_info`: `get_busy`, `get_endevent`, `get_queue`, `get_sound`,
`get_volume` for each channel handle. -/
structure ChannelBackend where
  busy : Nat → Bool
  endevent : Nat → Int
  queue : Nat → Option Nat
  soundOf : Nat → Option Nat
  volume : Nat → ℚ

/-- The populated information dict returned by `get_channel_info`. -/
structure ChannelData where
  busy : Bool
  endevent : Int
  queue : Option Nat
  sound : Option Nat
  volume : ℚ
deriving DecidableEq, Repr

/-- Model of `Sound.get_channel_info`: fetch the channel; the empty dict is
modelled as `none`, the populated dict as `some` of all five fields read
from the backend. -/
def get_channel_info (cb : ChannelBackend) (found : Option Nat)
    (s : SoundState) : Option ChannelData × SoundState :=
  match get_channel found s with
  | (none, s1) => (none, s1)
  | (some ch, s1) =>
    (some ⟨cb.busy ch, cb.endevent ch, cb.queue ch, cb.soundOf ch, cb.volume ch⟩, s1)

/-- One element check of `assert_color`: `isinstance(color[i], int)` and
`0 <= color[i] <= 255`, with Python short-circuit order. -/
def color_elem_ok (x : PyNum) : Bool :=
  x.isInt && decide (0 ≤ x.toRat) && decide (x.toRat ≤ 255)

/-- Model of `utils.assert_color(color)` as a predicate: `true` = all asserts pass,
`false` = some assert fails.  The `isinstance(color, (tuple, list))`
assert is discharged by the `List` type of the model. -/
def assert_color (color : List PyNum) : Bool :=
  decide (3 ≤ color.length) && decide (color.length ≤ 4)
    && (color.take 3).all color_elem_ok
    && (match color[3]? with
        | some a => color_elem_ok a
        | none => true)

/-! Concrete fixtures used to instantiate the theorems below. -/

/-- A backend with one decodable file (handle 1, duration 1s) and one
existing but undecodable file. -/
def demoBackend : Backend :=
  { fileExists := fun p => p == "good.ogg" || p == "bad.ogg"
    decode := fun p => if p == "good.ogg" then some (1, 1) else none }

/-- The state of a freshly constructed `Sound(uniquechannel=u)`. -/
def demoState (u : Bool) : SoundState :=
  { channel := none, uniquechannel := u, sound := fun _ => none,
    last_play := "", last_time := 0 }

/-- The clip stored after binding `good.ogg` to the error kind with the
default parameters. -/
def demoClip : Clip :=
  { file := 1, path := "good.ogg", type := SOUND_TYPE_ERROR, length := 1,
    volume := .floatv (1/2), loops := .intv 0, maxtime := .intv 0,
    fade_ms := .intv 0 }

/-- A channel backend with fixed per-channel readings. -/
def demoCB : ChannelBackend :=
  ⟨fun _ => true, fun c => (c : Int), fun _ => none, fun _ => some 9, fun _ => 1⟩

/-- The IEEE binary64 value denoted by the literal 0.1
(0.1000000000000000055511151231257827). -/
def d01 : ℚ := 7205759403792794 / 2 ^ 56

/-- The IEEE binary64 value denoted by the literal 0.2
(0.2000000000000000111022302462516); also the value of the float
literal `0.2` in the overlap gate, and of `0.2 * 1.0`. -/
def d02 : ℚ := 7205759403792794 / 2 ^ 55

/-- The IEEE binary64 value denoted by the literal 0.3
(0.2999999999999999888977697537384). -/
def d03 : ℚ := 5404319552844595 / 2 ^ 54

/-- The binary64 result of d03 - d01: the difference is exactly
representable (no rounding occurs) and equals 0.19999999999999998,
strictly below d02. -/
def dgap : ℚ := 7205759403792793 / 2 ^ 55

/-! Helper lemmas. -/

/-- Writing back the value a field already has is the identity. -/
lemma soundstate_set_channel_self (s : SoundState) (h : s.channel = none) :
    { s with channel := none } = s := by
  cases s
  simp_all

/-- The call `get_channel` never modifies `_uniquechannel`, `_last_play`,
`_last_time` or `_sound`. -/
lemma get_channel_keeps (found : Option Nat) (s : SoundState) :
    (get_channel found s).2.uniquechannel = s.uniquechannel ∧
    (get_channel found s).2.last_play = s.last_play ∧
    (get_channel found s).2.last_time = s.last_time ∧
    ∀ k, (get_channel found s).2.sound k = s.sound k := by
  unfold get_channel
  split
  · cases s.channel <;> simp
  · simp

/-- In unique mode with a cached channel, `get_channel` returns the cache
and leaves the state alone. -/
lemma get_channel_cached (found : Option Nat) (s : SoundState) (c : Nat)
    (hu : s.uniquechannel = true) (hc : s.channel = some c) :
    get_channel found s = (some c, s) := by
  simp [get_channel, hu, hc]

/-- In unique mode with no cached channel, `get_channel` stores and
returns the answer of the backend. -/
lemma get_channel_unique_none (found : Option Nat) (s : SoundState)
    (hu : s.uniquechannel = true) (hc : s.channel = none) :
    get_channel found s = (found, { s with channel := found }) := by
  rw [get_channel, if_pos hu, hc]

/-- In unique mode, the channel stored after `get_channel` is the channel
it returned. -/
lemma get_channel_unique_post (found : Option Nat) (s : SoundState)
    (hu : s.uniquechannel = true) :
    (get_channel found s).2.channel = (get_channel found s).1 := by
  unfold get_channel
  rw [if_pos hu]
  cases hc : s.channel <;> simp [hc]

/-- In unique mode with a cached channel, every subsequent call returns
the cached channel and the state never changes. -/
lemma get_channel_run_cached (s : SoundState) (c : Nat) (rs : List (Option Nat))
    (hu : s.uniquechannel = true) (hc : s.channel = some c) :
    get_channel_run s rs = (rs.map fun _ => some c, s) := by
  induction rs with
  | nil => simp [get_channel_run]
  | cons r rs ih => simp [get_channel_run, get_channel_cached r s c hu hc, ih]

/-- In non-unique mode, every `get_channel` call hands back exactly the
channel the backend just returned. -/
lemma get_channel_run_nonunique (s : SoundState) (rs : List (Option Nat))
    (hmode : s.uniquechannel = false) :
    (get_channel_run s rs).1 = rs := by
  induction rs generalizing s with
  | nil => simp [get_channel_run]
  | cons r rs ih =>
    simp only [get_channel_run, get_channel, hmode, Bool.false_eq_true, if_false]
    exact congrArg (r :: ·) (ih _ rfl)

/-! Claim theorems. -/

/-- C4: with `uniqueChannel=true`, `get_channel` caches the first non-null
channel the backend returns and every later call returns that cached
handle even if the backend reports a different one; with
`uniqueChannel=false`, every call returns exactly what the backend just
returned. -/
theorem channel_pinning_C4 (s : SoundState) (rs1 rs2 : List (Option Nat)) (c : Nat)
    (hu : s.uniquechannel = true) (hc : s.channel = none)
    (hpre : ∀ x ∈ rs1, x = none) :
    (get_channel_run s (rs1 ++ some c :: rs2)).1
      = rs1 ++ some c :: rs2.map (fun _ => some c) ∧
    ∀ (s2 : SoundState) (rs : List (Option Nat)), s2.uniquechannel = false →
      (get_channel_run s2 rs).1 = rs := by
  constructor
  · induction rs1 with
    | nil =>
      simp only [List.nil_append, get_channel_run,
        get_channel_unique_none (some c) s hu hc]
      rw [get_channel_run_cached { s with channel := some c } c rs2 (by exact hu) rfl]
    | cons r rs ih =>
      have hr : r = none := hpre r (by simp)
      subst hr
      simp only [List.cons_append, get_channel_run,
        get_channel_unique_none none s hu hc]
      rw [soundstate_set_channel_self s hc]
      exact congrArg (none :: ·) (ih (fun x hx => hpre x (by simp [hx])))
  · intro s2 rs hmode
    exact get_channel_run_nonunique s2 rs hmode

/-- C4 witness: a concrete run in unique mode (backend answers
`none, 5, 7, none`; every call after the first non-null answer returns
the pinned channel 5). -/
theorem channel_pinning_C4_witness :
    (get_channel_run (demoState true) ([none] ++ some 5 :: [some 7, none])).1
      = [none] ++ some 5 :: ([some 7, none].map fun _ => some 5) :=
  (channel_pinning_C4 (demoState true) [none] [some 7, none] 5 rfl rfl
    (by decide)).1

/-- C7: `get_channel_info` returns the empty mapping exactly when channel
acquisition yields no channel, and otherwise a mapping populated with all
five fields read from the backend channel. -/
theorem channel_info_C7 (cb : ChannelBackend) (found : Option Nat) (s : SoundState) :
    ((get_channel_info cb found s).1 = none ↔ (get_channel found s).1 = none) ∧
    ∀ ch, (get_channel found s).1 = some ch →
      (get_channel_info cb found s).1 =
        some ⟨cb.busy ch, cb.endevent ch, cb.queue ch, cb.soundOf ch, cb.volume ch⟩ := by
  rcases hgc : get_channel found s with ⟨co, s1⟩
  cases co <;> simp [get_channel_info, hgc]

/-- C7 witness: concrete non-unique registry with channel 4 available. -/
theorem channel_info_C7_witness :
    (get_channel_info demoCB (some 4) (demoState false)).1 =
      some ⟨demoCB.busy 4, demoCB.endevent 4, demoCB.queue 4,
            demoCB.soundOf 4, demoCB.volume 4⟩ :=
  (channel_info_C7 demoCB (some 4) (demoState false)).2 4 rfl

/-- One color element passes its checks iff it is an integer in [0,255]. -/
lemma color_elem_ok_iff (x : PyNum) :
    color_elem_ok x = true ↔ ∃ n : Int, x = .intv n ∧ 0 ≤ n ∧ n ≤ 255 := by
  cases x with
  | intv n =>
    simp only [color_elem_ok, PyNum.isInt, PyNum.toRat, Bool.and_eq_true,
      decide_eq_true_eq, true_and]
    constructor
    · rintro ⟨h1, h2⟩
      exact ⟨n, rfl, by exact_mod_cast h1, by exact_mod_cast h2⟩
    · rintro ⟨m, hm, h1, h2⟩
      cases hm
      exact ⟨by exact_mod_cast h1, by exact_mod_cast h2⟩
  | floatv q => simp [color_elem_ok, PyNum.isInt]

/-- C8: `assert_color` accepts exactly the 3- or 4-element sequences of
integers in [0,255]; in particular `(10,20,300)` fails, `(10,20,30,255)`
succeeds and `(1,2)` fails. -/
theorem assert_color_C8 :
    (∀ color : List PyNum,
      assert_color color = true ↔
        ((color.length = 3 ∨ color.length = 4) ∧
          ∀ x ∈ color, ∃ n : Int, x = .intv n ∧ 0 ≤ n ∧ n ≤ 255)) ∧
    assert_color [.intv 10, .intv 20, .intv 300] = false ∧
    assert_color [.intv 10, .intv 20, .intv 30, .intv 255] = true ∧
    assert_color [.intv 1, .intv 2] = false := by
  refine ⟨?_, by decide, by decide, by decide⟩
  intro color
  match color with
  | [] => simp [assert_color]
  | [a] => simp [assert_color]
  | [a, b] => simp [assert_color]
  | [a, b, c] =>
    simp [assert_color, color_elem_ok_iff]
  | [a, b, c, d] =>
    simp [assert_color, color_elem_ok_iff, and_assoc]
  | a :: b :: c :: d :: e :: rest =>
    simp [assert_color]

/-- In non-unique mode with a channel available, `play_sound` reduces to:
store the channel, issue one `play` call iff the overlap gate passes,
and update the last-played state. -/
lemma play_sound_nonunique (c : Nat) (now : ℚ) (clip : Clip) (s : SoundState)
    (hmode : s.uniquechannel = false) :
    play_sound (some c) now (some clip) s =
      (true,
       { s with channel := some c, last_play := clip.type, last_time := now },
       if clip.type != s.last_play
           || decide (fsub now s.last_time ≥ fmul (fl (0.2 : ℚ)) clip.length) then
         [.play c clip.file clip.loops clip.maxtime clip.fade_ms]
       else []) := by
  simp only [play_sound, get_channel, hmode, Bool.false_eq_true, if_false,
    Bool.or_false]
  rfl

/-- In unique mode, whenever `get_channel` yields a channel, `play_sound`
always stops that channel and then plays the clip on it, and updates the
last-played state. -/
lemma play_sound_unique (found : Option Nat) (now : ℚ) (clip : Clip)
    (s : SoundState) (ch : Nat)
    (hu : s.uniquechannel = true) (hch : (get_channel found s).1 = some ch) :
    play_sound found now (some clip) s =
      (true,
       { (get_channel found s).2 with last_play := clip.type, last_time := now },
       [.stop ch, .play ch clip.file clip.loops clip.maxtime clip.fade_ms]) := by
  rcases hgc : get_channel found s with ⟨co, s1⟩
  rw [hgc] at hch
  simp only at hch
  subst hch
  have hu1 : s1.uniquechannel = true := by
    have := (get_channel_keeps found s).1
    rw [hgc] at this
    simpa [hu] using this
  simp [play_sound, hgc, hu1]

/-- Uniqueness of the binade exponent: if x lies in [2^e, 2^(e+1)) then
`Int.log 2 x = e`. -/
lemma int_log_eq_of (x : ℚ) (e : ℤ) (h0 : 0 < x)
    (h1 : (2 : ℚ) ^ e ≤ x) (h2 : x < (2 : ℚ) ^ (e + 1)) : Int.log 2 x = e := by
  have hb : 1 < (2 : ℕ) := by norm_num
  have h1a : ((2 : ℕ) : ℚ) ^ e ≤ x := by exact_mod_cast h1
  have h2a : x < ((2 : ℕ) : ℚ) ^ (e + 1) := by exact_mod_cast h2
  have hle := (Int.zpow_le_iff_le_log hb h0).mp h1a
  have hlt := (Int.lt_zpow_iff_log_lt hb h0).mp h2a
  omega

/-- Evaluation of `fl` when the value rounds down: x lies in the binade
[2^e, 2^(e+1)) and in the lower half of the step starting at
m * 2^(e-52). -/
lemma fl_pos_down (x : ℚ) (e m : ℤ) (h0 : 0 < x)
    (h1 : (2 : ℚ) ^ e ≤ x) (h2 : x < (2 : ℚ) ^ (e + 1))
    (hm1 : (m : ℚ) * (2 : ℚ) ^ (e - 52) ≤ x)
    (hm2 : 2 * (x - (m : ℚ) * (2 : ℚ) ^ (e - 52)) < (2 : ℚ) ^ (e - 52)) :
    fl x = (m : ℚ) * (2 : ℚ) ^ (e - 52) := by
  have hu : (0 : ℚ) < (2 : ℚ) ^ (e - 52) := zpow_pos (by norm_num) _
  have hlog : Int.log 2 x = e := int_log_eq_of x e h0 h1 h2
  have hfloor : ⌊x / (2 : ℚ) ^ (e - 52)⌋ = m := by
    rw [Int.floor_eq_iff]
    refine ⟨(le_div_iff₀ hu).mpr (by linarith), (div_lt_iff₀ hu).mpr ?_⟩
    linarith
  unfold fl
  rw [if_neg h0.ne']
  simp only [abs_of_pos h0, hlog, hfloor]
  rw [if_pos hm2, if_neg (not_lt.mpr h0.le), one_mul]

/-- Evaluation of `fl` when the value rounds up: x lies in the binade
[2^e, 2^(e+1)) and strictly in the upper half of the step starting at
m * 2^(e-52). -/
lemma fl_pos_up (x : ℚ) (e m : ℤ) (h0 : 0 < x)
    (h1 : (2 : ℚ) ^ e ≤ x) (h2 : x < (2 : ℚ) ^ (e + 1))
    (_hm1 : (m : ℚ) * (2 : ℚ) ^ (e - 52) ≤ x)
    (hm2 : x < ((m : ℚ) + 1) * (2 : ℚ) ^ (e - 52))
    (hr : (2 : ℚ) ^ (e - 52) < 2 * (x - (m : ℚ) * (2 : ℚ) ^ (e - 52))) :
    fl x = ((m : ℚ) + 1) * (2 : ℚ) ^ (e - 52) := by
  have hu : (0 : ℚ) < (2 : ℚ) ^ (e - 52) := zpow_pos (by norm_num) _
  have hlog : Int.log 2 x = e := int_log_eq_of x e h0 h1 h2
  have hfloor : ⌊x / (2 : ℚ) ^ (e - 52)⌋ = m := by
    rw [Int.floor_eq_iff]
    refine ⟨(le_div_iff₀ hu).mpr (by linarith), (div_lt_iff₀ hu).mpr ?_⟩
    linarith
  unfold fl
  rw [if_neg h0.ne']
  simp only [abs_of_pos h0, hlog, hfloor]
  rw [if_neg (not_lt.mpr hr.le), if_pos hr, if_neg (not_lt.mpr h0.le), one_mul]
  push_cast
  ring

/-- The float literal 0.1 denotes the double d01 (1/10 rounds up). -/
lemma fl_decimal_01 : fl (0.1 : ℚ) = d01 := by
  rw [fl_pos_up (0.1 : ℚ) (-4) 7205759403792793 (by norm_num) (by norm_num)
    (by norm_num) (by norm_num) (by norm_num) (by norm_num), d01]
  norm_num

/-- The float literal 0.2 denotes the double d02 (1/5 rounds up). -/
lemma fl_decimal_02 : fl (0.2 : ℚ) = d02 := by
  rw [fl_pos_up (0.2 : ℚ) (-3) 7205759403792793 (by norm_num) (by norm_num)
    (by norm_num) (by norm_num) (by norm_num) (by norm_num), d02]
  norm_num

/-- The float literal 0.3 denotes the double d03 (3/10 rounds down). -/
lemma fl_decimal_03 : fl (0.3 : ℚ) = d03 := by
  rw [fl_pos_down (0.3 : ℚ) (-2) 5404319552844595 (by norm_num) (by norm_num)
    (by norm_num) (by norm_num) (by norm_num), d03]
  norm_num

/-- d01 is a double: rounding it is the identity. -/
lemma fl_d01 : fl d01 = d01 := by
  rw [show d01 = ((7205759403792794 : ℤ) : ℚ) * (2 : ℚ) ^ ((-4 : ℤ) - 52) by
        rw [d01]; norm_num]
  exact fl_pos_down _ (-4) 7205759403792794 (by norm_num) (by norm_num)
    (by norm_num) (by norm_num) (by norm_num)

/-- d02 is a double: rounding it is the identity. -/
lemma fl_d02 : fl d02 = d02 := by
  rw [show d02 = ((7205759403792794 : ℤ) : ℚ) * (2 : ℚ) ^ ((-3 : ℤ) - 52) by
        rw [d02]; norm_num]
  exact fl_pos_down _ (-3) 7205759403792794 (by norm_num) (by norm_num)
    (by norm_num) (by norm_num) (by norm_num)

/-- dgap is a double: rounding it is the identity. -/
lemma fl_dgap : fl dgap = dgap := by
  rw [show dgap = ((7205759403792793 : ℤ) : ℚ) * (2 : ℚ) ^ ((-3 : ℤ) - 52) by
        rw [dgap]; norm_num]
  exact fl_pos_down _ (-3) 7205759403792793 (by norm_num) (by norm_num)
    (by norm_num) (by norm_num) (by norm_num)

/-- The gate threshold for a duration-1 clip: `0.2 * 1.0` computed in
binary64 equals d02. -/
lemma gate_threshold : fmul (fl (0.2 : ℚ)) 1 = d02 := by
  rw [fmul, fl_decimal_02, mul_one, fl_d02]

/-- At t = d01 (with last time 0) the gate comparison is false:
0.1 - 0.0 < 0.2 in binary64. -/
lemma gate_at_01 : ¬ (fsub d01 0 ≥ fmul (fl (0.2 : ℚ)) 1) := by
  rw [gate_threshold, fsub, sub_zero, fl_d01, d01, d02]
  norm_num

/-- At t = d03 (with last time d01) the gate comparison is false:
0.3 - 0.1 computes to 0.19999999999999998 < 0.2 in binary64. -/
lemma gate_at_03 : ¬ (fsub d03 d01 ≥ fmul (fl (0.2 : ℚ)) 1) := by
  rw [gate_threshold, fsub,
    show d03 - d01 = dgap by rw [d01, d03, dgap]; norm_num, fl_dgap, dgap, d02]
  norm_num

/-- Joint evaluation of the C1 scenario on the binary64 gate: a
duration-1 clip, fresh kind, non-unique mode, channel available, played
at the double times 0, d01 (= 0.1) and d03 (= 0.3).  Only the t=0 call
passes the gate; both later calls are suppressed, each still resetting
the last-played time.  Shared by the C1 theorem and counterexample. -/
lemma overlap_double_run (clip : Clip) (s : SoundState) (c : Nat)
    (hlen : clip.length = 1) (hfresh : clip.type ≠ s.last_play)
    (hmode : s.uniquechannel = false) :
    playCount (play_seq (some c) (some clip) s [0, d01, d03]).2 = 1 ∧
    playCount (play_sound (some c) 0 (some clip) s).2.2 = 1 ∧
    playCount (play_sound (some c) d01 (some clip)
      (play_sound (some c) 0 (some clip) s).2.1).2.2 = 0 ∧
    (play_sound (some c) d01 (some clip)
      (play_sound (some c) 0 (some clip) s).2.1).2.1.last_time = d01 ∧
    playCount (play_sound (some c) d03 (some clip)
      (play_sound (some c) d01 (some clip)
        (play_sound (some c) 0 (some clip) s).2.1).2.1).2.2 = 0 ∧
    (play_sound (some c) d03 (some clip)
      (play_sound (some c) d01 (some clip)
        (play_sound (some c) 0 (some clip) s).2.1).2.1).2.1.last_time = d03 := by
  have hb : (clip.type != s.last_play) = true := bne_iff_ne.mpr hfresh
  have e1 : play_sound (some c) 0 (some clip) s =
      (true,
       { s with channel := some c, last_play := clip.type, last_time := 0 },
       [.play c clip.file clip.loops clip.maxtime clip.fade_ms]) := by
    rw [play_sound_nonunique c 0 clip s hmode]
    simp [hb]
  have e2 : play_sound (some c) d01 (some clip)
      { s with channel := some c, last_play := clip.type, last_time := 0 } =
      (true,
       { s with channel := some c, last_play := clip.type, last_time := d01 },
       []) := by
    rw [play_sound_nonunique c d01 clip _ (by exact hmode)]
    simp [hlen, gate_at_01]
  have e3 : play_sound (some c) d03 (some clip)
      { s with channel := some c, last_play := clip.type, last_time := d01 } =
      (true,
       { s with channel := some c, last_play := clip.type, last_time := d03 },
       []) := by
    rw [play_sound_nonunique c d03 clip _ (by exact hmode)]
    simp [hlen, gate_at_03]
  refine ⟨?_, ?_, ?_, ?_, ?_, ?_⟩
  · simp [play_seq, e1, e2, e3, playCount, List.countP, List.countP.go]
  · rw [e1]
    simp [playCount, List.countP, List.countP.go]
  · rw [e1]
    simp only
    rw [e2]
    simp [playCount, List.countP, List.countP.go]
  · rw [e1]
    simp only
    rw [e2]
  · rw [e1]
    simp only
    rw [e2]
    simp only
    rw [e3]
    simp [playCount, List.countP, List.countP.go]
  · rw [e1]
    simp only
    rw [e2]
    simp only
    rw [e3]

/-- C1 (amended): non-unique mode, clip of duration 1.0 bound to a kind
differing from the last-played kind, channel available; plays at the
double times t=0, t=0.1 (= d01) and t=0.3 (= d03) issue exactly ONE
backend play call: t=0 triggers, and both t=0.1 and t=0.3 are suppressed
by the overlap gate, because the source computes the gate in IEEE
doubles, where 0.1 - 0.0 = 0.1000000000000000055 and
0.3 - 0.1 = 0.19999999999999998 are both below 0.2 × 1.0
= 0.20000000000000001.  Each suppressed call still resets the
last-played time (to 0.1, then 0.3). -/
theorem overlap_suppression_C1 (clip : Clip) (s : SoundState) (c : Nat)
    (hlen : clip.length = 1) (hfresh : clip.type ≠ s.last_play)
    (hmode : s.uniquechannel = false) :
    playCount (play_seq (some c) (some clip) s [0, d01, d03]).2 = 1 ∧
    playCount (play_sound (some c) 0 (some clip) s).2.2 = 1 ∧
    playCount (play_sound (some c) d01 (some clip)
      (play_sound (some c) 0 (some clip) s).2.1).2.2 = 0 ∧
    (play_sound (some c) d01 (some clip)
      (play_sound (some c) 0 (some clip) s).2.1).2.1.last_time = d01 ∧
    playCount (play_sound (some c) d03 (some clip)
      (play_sound (some c) d01 (some clip)
        (play_sound (some c) 0 (some clip) s).2.1).2.1).2.2 = 0 ∧
    (play_sound (some c) d03 (some clip)
      (play_sound (some c) d01 (some clip)
        (play_sound (some c) 0 (some clip) s).2.1).2.1).2.1.last_time = d03 :=
  overlap_double_run clip s c hlen hfresh hmode

/-- C1 counterexample to the original claim: the double times denoted by
0.1 and 0.3 are d01 and d03, and at t=0, d01, d03 the scenario issues
one backend play call — not the two the claim asserts — because in
binary64 arithmetic 0.3 - 0.1 = 0.19999999999999998 < 0.2 × 1.0, so the
t=0.3 call is suppressed as well. -/
theorem overlap_suppression_C1_counterexample :
    fl (0.1 : ℚ) = d01 ∧ fl (0.3 : ℚ) = d03 ∧
    ¬ (playCount (play_seq (some 2) (some demoClip) (demoState false)
        [0, d01, d03]).2 = 2) := by
  refine ⟨fl_decimal_01, fl_decimal_03, ?_⟩
  rw [(overlap_double_run demoClip (demoState false) 2 rfl (by decide) rfl).1]
  decide

/-- C1 witness: the error-kind example clip on a fresh non-unique
registry with channel 2 available, played at 0, d01, d03. -/
theorem overlap_suppression_C1_witness :
    playCount (play_seq (some 2) (some demoClip) (demoState false) [0, d01, d03]).2 = 1 ∧
    playCount (play_sound (some 2) 0 (some demoClip) (demoState false)).2.2 = 1 ∧
    playCount (play_sound (some 2) d01 (some demoClip)
      (play_sound (some 2) 0 (some demoClip) (demoState false)).2.1).2.2 = 0 ∧
    (play_sound (some 2) d01 (some demoClip)
      (play_sound (some 2) 0 (some demoClip) (demoState false)).2.1).2.1.last_time = d01 ∧
    playCount (play_sound (some 2) d03 (some demoClip)
      (play_sound (some 2) d01 (some demoClip)
        (play_sound (some 2) 0 (some demoClip) (demoState false)).2.1).2.1).2.2 = 0 ∧
    (play_sound (some 2) d03 (some demoClip)
      (play_sound (some 2) d01 (some demoClip)
        (play_sound (some 2) 0 (some demoClip) (demoState false)).2.1).2.1).2.1.last_time = d03 :=
  overlap_suppression_C1 demoClip (demoState false) 2 rfl (by decide) rfl

/-- C2: whenever the clip is bound and a channel is acquired, `play_sound`
returns true and sets the last-played kind and time — even when the
overlap gate suppressed the backend play call (no gate hypothesis
appears); it returns false exactly when the clip is unbound or no channel
is available, and then the last-played state is untouched. -/
theorem tryPlay_state_C2 (found : Option Nat) (now : ℚ) (clip : Option Clip)
    (s : SoundState) :
    ((play_sound found now clip s).1 = false ↔
      clip = none ∨ (get_channel found s).1 = none) ∧
    (∀ c, clip = some c → (get_channel found s).1 ≠ none →
      (play_sound found now clip s).1 = true ∧
      (play_sound found now clip s).2.1.last_play = c.type ∧
      (play_sound found now clip s).2.1.last_time = now) ∧
    ((play_sound found now clip s).1 = false →
      (play_sound found now clip s).2.1.last_play = s.last_play ∧
      (play_sound found now clip s).2.1.last_time = s.last_time) := by
  have hkeep := get_channel_keeps found s
  rcases hgc : get_channel found s with ⟨co, s1⟩
  rw [hgc] at hkeep
  simp only at hkeep
  cases clip with
  | none => simp [play_sound]
  | some cl =>
    cases co with
    | none =>
      simp only [play_sound, hgc]
      simp [hkeep.2.1, hkeep.2.2.1]
    | some ch =>
      simp [play_sound, hgc]

/-- C2 witness: bound clip, channel 2 available, t=7. -/
theorem tryPlay_state_C2_witness :
    (play_sound (some 2) 7 (some demoClip) (demoState false)).1 = true ∧
    (play_sound (some 2) 7 (some demoClip) (demoState false)).2.1.last_play
      = demoClip.type ∧
    (play_sound (some 2) 7 (some demoClip) (demoState false)).2.1.last_time = 7 :=
  (tryPlay_state_C2 (some 2) 7 (some demoClip) (demoState false)).2.1 demoClip rfl
    (by decide)

/-- C3: in unique-channel mode, every play of a bound clip with an
acquired channel passes the gate regardless of the last-played state and
the current time, and issues a channel stop followed by a play; in
particular two consecutive plays of the same clip at t=0 and t=0.01 both
issue a backend play call. -/
theorem unique_mode_C3 (clip : Clip) (s : SoundState) (found : Option Nat)
    (now : ℚ) (ch : Nat)
    (hu : s.uniquechannel = true) (hch : (get_channel found s).1 = some ch) :
    (play_sound found now (some clip) s).2.2 =
      [.stop ch, .play ch clip.file clip.loops clip.maxtime clip.fade_ms] ∧
    playCount (play_sound found 0 (some clip) s).2.2 = 1 ∧
    playCount (play_sound found 0.01 (some clip)
      (play_sound found 0 (some clip) s).2.1).2.2 = 1 := by
  have hpost : (get_channel found s).2.channel = some ch := by
    rw [get_channel_unique_post found s hu, hch]
  have hukeep : (get_channel found s).2.uniquechannel = true := by
    rw [(get_channel_keeps found s).1, hu]
  have e0 := play_sound_unique found 0 clip s ch hu hch
  refine ⟨?_, ?_, ?_⟩
  · rw [play_sound_unique found now clip s ch hu hch]
  · rw [e0]
    simp [playCount, List.countP, List.countP.go]
  · rw [e0]
    simp only
    have hu1 : ({ (get_channel found s).2 with
        last_play := clip.type, last_time := (0 : ℚ) }).uniquechannel = true := hukeep
    have hch1 : (get_channel found
        { (get_channel found s).2 with
          last_play := clip.type, last_time := (0 : ℚ) }).1 = some ch := by
      rw [get_channel_cached _ _ ch hu1 (by exact hpost)]
    rw [play_sound_unique found 0.01 clip _ ch hu1 hch1]
    simp [playCount, List.countP, List.countP.go]

/-- C3 witness: fresh unique-mode registry, channel 2 available. -/
theorem unique_mode_C3_witness :
    (play_sound (some 2) 5 (some demoClip) (demoState true)).2.2 =
      [.stop 2, .play 2 demoClip.file demoClip.loops demoClip.maxtime
        demoClip.fade_ms] ∧
    playCount (play_sound (some 2) 0 (some demoClip) (demoState true)).2.2 = 1 ∧
    playCount (play_sound (some 2) 0.01 (some demoClip)
      (play_sound (some 2) 0 (some demoClip) (demoState true)).2.1).2.2 = 1 :=
  unique_mode_C3 demoClip (demoState true) (some 2) 5 2 rfl rfl

/-- If any argument `assert` fails, `set_sound` raises `AssertionError`
and nothing else happens. -/
lemma set_sound_assert_fail (be : Backend) (s : SoundState) (k : String)
    (f : Option String) (volume loops maxtime fade_ms : PyNum)
    (h : args_ok volume loops maxtime fade_ms = false) :
    set_sound be s k f volume loops maxtime fade_ms =
      ⟨.raised .assertionError, s, false⟩ := by
  simp [set_sound, h]

/-- If all argument `assert`s pass and the kind is known, `set_sound`
reduces to the file handling tail. -/
lemma set_sound_checked (be : Backend) (s : SoundState) (k : String)
    (f : Option String) (volume loops maxtime fade_ms : PyNum)
    (hargs : args_ok volume loops maxtime fade_ms = true)
    (hk : k ∈ type_sounds) :
    set_sound be s k f volume loops maxtime fade_ms =
      match f with
      | none => ⟨.returned false, clearBinding s k, false⟩
      | some p =>
        if be.fileExists p then
          match be.decode p with
          | none => ⟨.returned false, clearBinding s k, true⟩
          | some (hnd, len) =>
            ⟨.returned true,
             { s with sound := fun t =>
                 if t = k then
                   some ⟨hnd, p, k, len, volume, loops, maxtime, fade_ms⟩
                 else s.sound t },
             false⟩
        else ⟨.raised .ioError, s, false⟩ := by
  simp only [set_sound, hargs, Bool.not_true, Bool.false_eq_true, if_false, hk,
    not_true_eq_false]
  cases f with
  | none => simp
  | some p =>
    cases hfe : be.fileExists p <;> simp [hfe]

/-- If all argument `assert`s pass but the kind is unknown, `set_sound`
raises `ValueError`. -/
lemma set_sound_bad_kind (be : Backend) (s : SoundState) (k : String)
    (f : Option String) (volume loops maxtime fade_ms : PyNum)
    (hargs : args_ok volume loops maxtime fade_ms = true)
    (hk : k ∉ type_sounds) :
    set_sound be s k f volume loops maxtime fade_ms =
      ⟨.raised .valueError, s, false⟩ := by
  simp [set_sound, hargs, hk]

/-- C5: for a valid kind and valid arguments, binding a null source clears
the binding and returns false without raising; binding an existing but
undecodable file warns, clears the binding and returns false without
raising; binding an existing decodable file stores the clip with its
parameters under that kind and returns true. -/
theorem bind_outcomes_C5 (be : Backend) (s : SoundState) (k : String)
    (volume loops maxtime fade_ms : PyNum)
    (hk : k ∈ type_sounds)
    (hargs : args_ok volume loops maxtime fade_ms = true) :
    (set_sound be s k none volume loops maxtime fade_ms =
      ⟨.returned false, clearBinding s k, false⟩) ∧
    (∀ f, be.fileExists f = true → be.decode f = none →
      set_sound be s k (some f) volume loops maxtime fade_ms =
        ⟨.returned false, clearBinding s k, true⟩) ∧
    (∀ f hnd len, be.fileExists f = true → be.decode f = some (hnd, len) →
      (set_sound be s k (some f) volume loops maxtime fade_ms).out
          = .returned true ∧
      (set_sound be s k (some f) volume loops maxtime fade_ms).state.sound k
          = some ⟨hnd, f, k, len, volume, loops, maxtime, fade_ms⟩) := by
  refine ⟨?_, ?_, ?_⟩
  · rw [set_sound_checked be s k none volume loops maxtime fade_ms hargs hk]
  · intro f hfe hdec
    rw [set_sound_checked be s k (some f) volume loops maxtime fade_ms hargs hk]
    simp [hfe, hdec]
  · intro f hnd len hfe hdec
    rw [set_sound_checked be s k (some f) volume loops maxtime fade_ms hargs hk]
    simp [hfe, hdec]

/-- C5 witness: the error kind with the demo backend (`bad.ogg` exists
but does not decode, `good.ogg` decodes to handle 1 with duration 1). -/
theorem bind_outcomes_C5_witness :
    (set_sound demoBackend (demoState true) SOUND_TYPE_ERROR none
      (.floatv (1/2)) (.intv 0) (.intv 0) (.intv 0) =
      ⟨.returned false, clearBinding (demoState true) SOUND_TYPE_ERROR, false⟩) ∧
    (set_sound demoBackend (demoState true) SOUND_TYPE_ERROR (some "bad.ogg")
      (.floatv (1/2)) (.intv 0) (.intv 0) (.intv 0) =
      ⟨.returned false, clearBinding (demoState true) SOUND_TYPE_ERROR, true⟩) ∧
    (set_sound demoBackend (demoState true) SOUND_TYPE_ERROR (some "good.ogg")
      (.floatv (1/2)) (.intv 0) (.intv 0) (.intv 0)).out = .returned true ∧
    (set_sound demoBackend (demoState true) SOUND_TYPE_ERROR (some "good.ogg")
      (.floatv (1/2)) (.intv 0) (.intv 0) (.intv 0)).state.sound SOUND_TYPE_ERROR
      = some ⟨1, "good.ogg", SOUND_TYPE_ERROR, 1, .floatv (1/2), .intv 0,
              .intv 0, .intv 0⟩ := by
  have hargs : args_ok (.floatv (1/2)) (.intv 0) (.intv 0) (.intv 0) = true := by
    simp [args_ok, PyNum.isFloat, PyNum.isInt, PyNum.toRat]
    norm_num
  have h := bind_outcomes_C5 demoBackend (demoState true) SOUND_TYPE_ERROR
    (.floatv (1/2)) (.intv 0) (.intv 0) (.intv 0) (by decide) hargs
  exact ⟨h.1, h.2.1 "bad.ogg" rfl rfl, h.2.2 "good.ogg" 1 1 rfl rfl⟩

/-- The demo default arguments pass all argument asserts. -/
lemma demo_args_ok : args_ok (.floatv (1/2)) (.intv 0) (.intv 0) (.intv 0) = true := by
  simp [args_ok, PyNum.isFloat, PyNum.isInt, PyNum.toRat]
  norm_num

/-- C6: `set_sound` raises `AssertionError` for every volume outside
[0,1] and every negative loops, maxtime or fade_ms; with valid arguments
it raises `ValueError` for every kind outside the nine known ones and
`IOError` for every non-existing source file.  All three surface to the
caller (the model catches no exception in `set_sound` except the decode
error). -/
theorem bind_rejects_C6 (be : Backend) (s : SoundState) (k : String)
    (f : Option String) (volume loops maxtime fade_ms : PyNum) :
    ((volume.toRat < 0 ∨ 1 < volume.toRat) →
      (set_sound be s k f volume loops maxtime fade_ms).out
        = .raised .assertionError) ∧
    (loops.toRat < 0 →
      (set_sound be s k f volume loops maxtime fade_ms).out
        = .raised .assertionError) ∧
    (maxtime.toRat < 0 →
      (set_sound be s k f volume loops maxtime fade_ms).out
        = .raised .assertionError) ∧
    (fade_ms.toRat < 0 →
      (set_sound be s k f volume loops maxtime fade_ms).out
        = .raised .assertionError) ∧
    (args_ok volume loops maxtime fade_ms = true → k ∉ type_sounds →
      (set_sound be s k f volume loops maxtime fade_ms).out
        = .raised .valueError) ∧
    (∀ p, args_ok volume loops maxtime fade_ms = true → k ∈ type_sounds →
      be.fileExists p = false →
      (set_sound be s k (some p) volume loops maxtime fade_ms).out
        = .raised .ioError) := by
  refine ⟨?_, ?_, ?_, ?_, ?_, ?_⟩
  · intro hv
    cases ha : args_ok volume loops maxtime fade_ms with
    | false => rw [set_sound_assert_fail be s k f _ _ _ _ ha]
    | true =>
      exfalso
      simp only [args_ok, Bool.and_eq_true, decide_eq_true_eq] at ha
      rcases hv with h | h
      · linarith [ha.2.2]
      · linarith [ha.2.1]
  · intro hl
    cases ha : args_ok volume loops maxtime fade_ms with
    | false => rw [set_sound_assert_fail be s k f _ _ _ _ ha]
    | true =>
      exfalso
      simp only [args_ok, Bool.and_eq_true, decide_eq_true_eq] at ha
      linarith [ha.1.1.1.2]
  · intro hm
    cases ha : args_ok volume loops maxtime fade_ms with
    | false => rw [set_sound_assert_fail be s k f _ _ _ _ ha]
    | true =>
      exfalso
      simp only [args_ok, Bool.and_eq_true, decide_eq_true_eq] at ha
      linarith [ha.1.1.2]
  · intro hf
    cases ha : args_ok volume loops maxtime fade_ms with
    | false => rw [set_sound_assert_fail be s k f _ _ _ _ ha]
    | true =>
      exfalso
      simp only [args_ok, Bool.and_eq_true, decide_eq_true_eq] at ha
      linarith [ha.1.2]
  · intro hargs hk
    rw [set_sound_bad_kind be s k f _ _ _ _ hargs hk]
  · intro p hargs hk hfe
    rw [set_sound_checked be s k (some p) _ _ _ _ hargs hk]
    simp [hfe]

/-- C6 witness: volume 2.0 is rejected, kind "bogus" is rejected, a
missing source file raises. -/
theorem bind_rejects_C6_witness :
    (set_sound demoBackend (demoState true) SOUND_TYPE_ERROR (some "good.ogg")
      (.floatv 2) (.intv 0) (.intv 0) (.intv 0)).out = .raised .assertionError ∧
    (set_sound demoBackend (demoState true) "bogus" (some "good.ogg")
      (.floatv (1/2)) (.intv 0) (.intv 0) (.intv 0)).out = .raised .valueError ∧
    (set_sound demoBackend (demoState true) SOUND_TYPE_ERROR (some "missing.ogg")
      (.floatv (1/2)) (.intv 0) (.intv 0) (.intv 0)).out = .raised .ioError :=
  ⟨(bind_rejects_C6 demoBackend (demoState true) SOUND_TYPE_ERROR
      (some "good.ogg") (.floatv 2) (.intv 0) (.intv 0) (.intv 0)).1
      (Or.inr (by norm_num [PyNum.toRat])),
   (bind_rejects_C6 demoBackend (demoState true) "bogus"
      (some "good.ogg") (.floatv (1/2)) (.intv 0) (.intv 0) (.intv 0)).2.2.2.2.1
      demo_args_ok (by decide),
   (bind_rejects_C6 demoBackend (demoState true) SOUND_TYPE_ERROR
      (some "good.ogg") (.floatv (1/2)) (.intv 0) (.intv 0) (.intv 0)).2.2.2.2.2
      "missing.ogg" demo_args_ok (by decide) rfl⟩

/-- C9: `set_sound` requires `volume` to be a Python float: every integer
volume (`0` and `1` included, for any other arguments and kind) raises
`AssertionError` from the `isinstance(volume, float)` assert; the same
float-only check guards `load_example_sounds`. -/
theorem volume_float_only_C9 (be : Backend) (s : SoundState) (k : String)
    (f : Option String) (n : Int) (loops maxtime fade_ms : PyNum) :
    (set_sound be s k f (.intv n) loops maxtime fade_ms).out
        = .raised .assertionError ∧
    (load_example_sounds be s (.intv n)).out = some .assertionError := by
  constructor
  · have ha : args_ok (.intv n) loops maxtime fade_ms = false := by
      simp [args_ok, PyNum.isFloat]
    rw [set_sound_assert_fail be s k f _ _ _ _ ha]
  · simp [load_example_sounds, PyNum.isFloat]

/-- C10: for a valid kind, `set_sound` never touches the bindings of the
other kinds, the cached channel, the unique flag or the last-played
state, and when it raises it leaves the whole state unchanged. -/
theorem bind_frame_C10 (be : Backend) (s : SoundState) (k : String)
    (f : Option String) (volume loops maxtime fade_ms : PyNum)
    (hk : k ∈ type_sounds) :
    (∀ k2, k2 ≠ k →
      (set_sound be s k f volume loops maxtime fade_ms).state.sound k2
        = s.sound k2) ∧
    (set_sound be s k f volume loops maxtime fade_ms).state.channel
      = s.channel ∧
    (set_sound be s k f volume loops maxtime fade_ms).state.uniquechannel
      = s.uniquechannel ∧
    (set_sound be s k f volume loops maxtime fade_ms).state.last_play
      = s.last_play ∧
    (set_sound be s k f volume loops maxtime fade_ms).state.last_time
      = s.last_time ∧
    (∀ e, (set_sound be s k f volume loops maxtime fade_ms).out = .raised e →
      (set_sound be s k f volume loops maxtime fade_ms).state = s) := by
  cases ha : args_ok volume loops maxtime fade_ms with
  | false =>
    rw [set_sound_assert_fail be s k f _ _ _ _ ha]
    simp
  | true =>
    rw [set_sound_checked be s k f _ _ _ _ ha hk]
    cases f with
    | none =>
      refine ⟨?_, rfl, rfl, rfl, rfl, ?_⟩
      · intro k2 hne
        simp [clearBinding, hne]
      · intro e he
        simp at he
    | some p =>
      dsimp only
      cases hfe : be.fileExists p with
      | false =>
        rw [if_neg (by simp)]
        exact ⟨fun k2 _ => rfl, rfl, rfl, rfl, rfl, fun e _ => rfl⟩
      | true =>
        rw [if_pos rfl]
        cases hdec : be.decode p with
        | none =>
          refine ⟨?_, rfl, rfl, rfl, rfl, ?_⟩
          · intro k2 hne
            simp [clearBinding, hne]
          · intro e he
            simp at he
        | some pr =>
          obtain ⟨hnd, len⟩ := pr
          refine ⟨?_, rfl, rfl, rfl, rfl, ?_⟩
          · intro k2 hne
            simp [hne]
          · intro e he
            simp at he

/-- C10 witness: a raising call (missing file) on a fresh registry leaves
the state untouched. -/
theorem bind_frame_C10_witness :
    (∀ k2, k2 ≠ SOUND_TYPE_ERROR →
      (set_sound demoBackend (demoState true) SOUND_TYPE_ERROR
        (some "missing.ogg") (.floatv (1/2)) (.intv 0) (.intv 0)
        (.intv 0)).state.sound k2 = (demoState true).sound k2) ∧
    (set_sound demoBackend (demoState true) SOUND_TYPE_ERROR
      (some "missing.ogg") (.floatv (1/2)) (.intv 0) (.intv 0)
      (.intv 0)).state.last_play = (demoState true).last_play ∧
    (set_sound demoBackend (demoState true) SOUND_TYPE_ERROR
      (some "missing.ogg") (.floatv (1/2)) (.intv 0) (.intv 0)
      (.intv 0)).state = demoState true := by
  have h := bind_frame_C10 demoBackend (demoState true) SOUND_TYPE_ERROR
    (some "missing.ogg") (.floatv (1/2)) (.intv 0) (.intv 0) (.intv 0) (by decide)
  refine ⟨h.1, h.2.2.2.1, h.2.2.2.2.2 .ioError ?_⟩
  rw [set_sound_checked demoBackend (demoState true) SOUND_TYPE_ERROR
    (some "missing.ogg") _ _ _ _ demo_args_ok (by decide)]
  rfl

end PygameMenu
